import Mathlib

set_option autoImplicit false

/-! # Verification of the rocket-chip C++ emulator driver (`src/csrc/emulator.cc`)

Shallow embedding of the emulator's simulation loop: the `MagicTracker`
pattern detector, the HTIF host-transport bridge, the VCD trace condition,
the per-cycle loop body, the loop itself, and the final exit-status
computation.  Machine integers (`uint64_t`, instruction words) are modelled
as `Nat`; none of the modelled quantities can overflow in the scenarios the
theorems cover.

The detector stores instructions in a `boost::circular_buffer` of capacity
4 and compares `insts[0] .. insts[3]` after every push, even while the
buffer holds fewer than 4 elements.  `boost::circular_buffer::operator[]`
performs no bounds check: reading an index at or beyond the current size
returns whatever sits in the not-yet-written storage slot.  We model such a
read by an explicit oracle `junk : Nat → Nat` giving the indeterminate
value found at each slot; every theorem quantifies over `junk`, so nothing
proved depends on a particular choice of the indeterminate values. -/

/-! ### Magic instruction encodings (emulator.cc lines 38-48) -/

def MAGIC_LEN : Nat := 4

def MAGIC_START0 : Nat := 0x04550513
def MAGIC_START1 : Nat := 0x04d50513
def MAGIC_START2 : Nat := 0x04250513
def MAGIC_START3 : Nat := 0x04550513

def MAGIC_STOP0 : Nat := 0x04350513
def MAGIC_STOP1 : Nat := 0x04f50513
def MAGIC_STOP2 : Nat := 0x05350513
def MAGIC_STOP3 : Nat := 0x04d50513

/-! ### The MagicTracker (emulator.cc lines 55-118)

The circular buffer `insts` is modelled as a `List Nat`, oldest element
first, holding at most `MAGIC_LEN` elements; `push_back` on a full buffer
evicts the oldest element (`pushWin`). -/

/-- State of the `MagicTracker`: the circular buffer of recently pushed
instructions (oldest first, at most 4 entries) and the two pending-event
flags. -/
structure MagicTracker where
  insts : List Nat
  needs_reset : Bool
  needs_emit_cycle_count : Bool
deriving DecidableEq, Repr

/-- `boost::circular_buffer::push_back` with capacity `MAGIC_LEN`: appends,
evicting the oldest element when the buffer is full. -/
def pushWin (w : List Nat) (i : Nat) : List Nat :=
  (if w.length = MAGIC_LEN then w.tail else w) ++ [i]

/-- `insts[i]` via `boost::circular_buffer::operator[]`: the stored element
when `i` is within the current size, otherwise the indeterminate content
`junk i` of the not-yet-written slot (no bounds check is performed). -/
def readSlot (junk : Nat → Nat) (w : List Nat) (i : Nat) : Nat :=
  w.getD i (junk i)

/-- The four-way conjunction `insts[0]==p0 && insts[1]==p1 && insts[2]==p2
&& insts[3]==p3` from `MagicTracker::nextInst` (lines 80-83 and 88-91). -/
def checkPat (junk : Nat → Nat) (w : List Nat) (p0 p1 p2 p3 : Nat) : Bool :=
  readSlot junk w 0 == p0 && readSlot junk w 1 == p1 &&
  readSlot junk w 2 == p2 && readSlot junk w 3 == p3

/-- `MagicTracker::nextInst` (lines 64-96): push the observed instruction
only when the buffer is empty or it differs from the most recently pushed
one; after a push, compare the window against the start and stop patterns
and raise the corresponding pending flag on a match. -/
def MagicTracker.nextInst (junk : Nat → Nat) (t : MagicTracker) (inst : Nat) :
    MagicTracker :=
  if t.insts = [] ∨ t.insts.getLast? ≠ some inst then
    let w := pushWin t.insts inst
    { insts := w
      needs_reset := t.needs_reset ||
        checkPat junk w MAGIC_START0 MAGIC_START1 MAGIC_START2 MAGIC_START3
      needs_emit_cycle_count := t.needs_emit_cycle_count ||
        checkPat junk w MAGIC_STOP0 MAGIC_STOP1 MAGIC_STOP2 MAGIC_STOP3 }
  else t

/-- `MagicTracker::hitStart` (lines 100-107): report and atomically clear
the pending start flag. -/
def MagicTracker.hitStart (t : MagicTracker) : Bool × MagicTracker :=
  (t.needs_reset, { t with needs_reset := false })

/-- `MagicTracker::hitStop` (lines 109-116): report and atomically clear
the pending stop flag. -/
def MagicTracker.hitStop (t : MagicTracker) : Bool × MagicTracker :=
  (t.needs_emit_cycle_count, { t with needs_emit_cycle_count := false })

/-! ### Access tracking for the pattern comparison

`&&` in C++ short-circuits, so the comparison at lines 80-83 evaluates
`insts[i+1]` only when `insts[0] .. insts[i]` all matched.  `patAccesses`
records, in evaluation order, exactly the indices the comparison reads. -/

/-- Indices of `insts` read by one short-circuiting four-way comparison:
index 0 is always read; index `i+1` is read exactly when the comparisons at
indices `0 .. i` all succeeded (the truth of the final comparison gates no
further access). -/
def patAccesses (junk : Nat → Nat) (w : List Nat) (p0 p1 p2 : Nat) :
    List Nat :=
  0 :: (if readSlot junk w 0 == p0 then
          1 :: (if readSlot junk w 1 == p1 then
                  2 :: (if readSlot junk w 2 == p2 then [3] else [])
                else [])
        else [])

/-- Indices of `insts` read by `MagicTracker::nextInst` on one call: when a
push happens, the start-pattern comparison runs first and the stop-pattern
comparison second, both over the post-push window; with no push, nothing is
read. -/
def nextInstAccesses (junk : Nat → Nat) (t : MagicTracker) (inst : Nat) :
    List Nat :=
  if t.insts = [] ∨ t.insts.getLast? ≠ some inst then
    let w := pushWin t.insts inst
    patAccesses junk w MAGIC_START0 MAGIC_START1 MAGIC_START2 ++
      patAccesses junk w MAGIC_STOP0 MAGIC_STOP1 MAGIC_STOP2
  else []

/-! ### The HTIF host-transport bridge (emulator.cc lines 308-320)

The function-local `static` pair `htif_in_valid` / `htif_in_bits` is the
bridge state.  A receive result is `some b` when `recv_nonblocking`
returned true having stored frame `b`, and `none` when nothing was
available (the buffered bits are then left unchanged and the valid flag is
cleared). -/

/-- The persistent inbound-frame buffer: `htif_in_valid` and
`htif_in_bits` (lines 310-311). -/
structure BridgeState where
  htif_in_valid : Bool
  htif_in_bits : Nat
deriving DecidableEq, Repr

/-- One gated bridge update (lines 312-314): attempt a non-blocking receive
exactly when the DUT asserted inbound readiness or no frame is pending;
returns the new buffer state and whether a receive was attempted.  After
the update the buffer contents are driven onto the DUT's inbound wires. -/
def bridgeStep (recv : Option Nat) (inReady : Bool) (s : BridgeState) :
    BridgeState × Bool :=
  if inReady || !s.htif_in_valid then
    (match recv with
     | some b => ⟨true, b⟩
     | none => ⟨false, s.htif_in_bits⟩,
     true)
  else (s, false)

/-- A sequence of gated bridge cycles.  Each input pair is (receive result
if attempted, DUT inbound readiness); each output triple records (receive
attempted, presented valid flag, presented frame value) for that cycle. -/
def bridgeRun : List (Option Nat × Bool) → BridgeState →
    BridgeState × List (Bool × Bool × Nat)
  | [], s => (s, [])
  | (r, rdy) :: rest, s =>
    let p := bridgeStep r rdy s
    let q := bridgeRun rest p.1
    (q.1, (p.2, p.1.htif_in_valid, p.1.htif_in_bits) :: q.2)

/-! ### The simulation loop (emulator.cc lines 257-363) -/

/-- Per-cycle oracle inputs from the collaborators the loop only observes:
the transport's completion predicate sampled at the loop head, whether
`tile.clock_lo` throws this cycle, the DUT outputs `Top__io_host_clk_edge`,
`Top__io_host_in_ready` and `tile.getInst()`, and the receive result the
transport would deliver if asked. -/
structure EnvIn where
  done : Bool
  evalFail : Bool
  host_clk_edge : Bool
  host_in_ready : Bool
  recv : Option Nat
  inst : Nat
deriving Repr

/-- Loop configuration: whether a VCD file was requested (`vcd`) and the
trace-start cycle (`start`, default 0). -/
structure SimConfig where
  vcd : Bool
  start : Nat
deriving DecidableEq, Repr

/-- Mutable state of `main`'s loop: `trace_count`, `max_cycles`, `ret`, the
tracker, and the bridge buffer. -/
structure SimState where
  trace_count : Nat
  max_cycles : Nat
  ret : Nat
  tracker : MagicTracker
  bridge : BridgeState
deriving DecidableEq, Repr

/-- The VCD dump condition (line 340): `vcd && (trace_count == 0 ||
trace_count >= start)`. -/
def dumpCond (vcd : Bool) (start trace_count : Nat) : Bool :=
  vcd && (trace_count == 0 || decide (start ≤ trace_count))

/-- Which actions one loop iteration performed, in source order: the memory
backends' `tick` calls (lines 284-306), whether the host-edge transport
block ran (line 308) and whether it attempted a receive (line 313), the
pattern observation (line 327), the consumed start and stop events (lines
328, 333) with the counter value at the observation point (the value a stop
event would print, line 334), the VCD dump (lines 340-341), and the
sequential commit `clock_hi` (line 343). -/
structure CycleEffects where
  ticked : Bool
  exchanged : Bool
  recvAttempted : Bool
  observed : Bool
  startEvt : Bool
  stopEvt : Bool
  reported : Nat
  dumped : Bool
  committed : Bool
deriving DecidableEq, Repr

/-- One iteration of the `while` body (lines 258-344), in source order:
memory pre-phase (no modelled state), `clock_lo` with its `catch` setting
`max_cycles = trace_count` and `ret = 1` on failure (lines 276-282), the
unconditional memory `tick`s, the host-edge-gated bridge update, the
tracker observation with start-event counter reset and stop-event count
report, the VCD dump, `clock_hi`, and `trace_count++`.  Nothing after the
`catch` block is skipped on an evaluation failure. -/
def cycleStep (junk : Nat → Nat) (cfg : SimConfig) (e : EnvIn) (s : SimState) :
    SimState × CycleEffects :=
  let maxc := if e.evalFail then s.trace_count else s.max_cycles
  let ret := if e.evalFail then 1 else s.ret
  let br := if e.host_clk_edge then bridgeStep e.recv e.host_in_ready s.bridge
            else (s.bridge, false)
  let tr1 := MagicTracker.nextInst junk s.tracker e.inst
  let st := tr1.hitStart
  let tc1 := if st.1 then 0 else s.trace_count
  let sp := st.2.hitStop
  let dumped := dumpCond cfg.vcd cfg.start tc1
  (⟨tc1 + 1, maxc, ret, sp.2, br.1⟩,
   ⟨true, e.host_clk_edge, br.2, true, st.1, sp.1, tc1, dumped, true⟩)

/-- The `while` condition (line 257): `!htif->done() && trace_count <
max_cycles && ret == 0`. -/
def loopCond (done : Bool) (s : SimState) : Bool :=
  !done && decide (s.trace_count < s.max_cycles) && (s.ret == 0)

/-- The simulation loop, fuel-bounded: run `cycleStep` while `loopCond`
holds, reading the cycle-`idx` oracle inputs from `env`. -/
def simRun (junk : Nat → Nat) (cfg : SimConfig) (env : Nat → EnvIn) :
    Nat → Nat → SimState → SimState
  | 0, _, s => s
  | fuel + 1, idx, s =>
    if loopCond (env idx).done s then
      simRun junk cfg env fuel (idx + 1) (cycleStep junk cfg (env idx) s).1
    else s

/-- The post-loop exit-status computation (lines 350-363): a non-zero
transport exit code is propagated verbatim; otherwise exhausting the cycle
budget exactly yields 2; otherwise the loop's `ret` stands. -/
def finalRet (exit_code : Nat) (s : SimState) : Nat :=
  if exit_code ≠ 0 then exit_code
  else if s.trace_count = s.max_cycles then 2
  else s.ret

/-- Run the loop body over a given list of per-cycle oracle inputs
(ignoring the loop condition), collecting each iteration's effects; used to
state properties of the detector as driven by the loop. -/
def runEffects (junk : Nat → Nat) (cfg : SimConfig) :
    List EnvIn → SimState → SimState × List CycleEffects
  | [], s => (s, [])
  | e :: rest, s =>
    let p := cycleStep junk cfg e s
    let q := runEffects junk cfg rest p.1
    (q.1, p.2 :: q.2)

/-- Oracle inputs for a cycle on which only the observed instruction
matters: transport not done, no evaluation failure, no host clock edge. -/
def obsEnv (i : Nat) : EnvIn :=
  ⟨false, false, false, false, none, i⟩

/-! ### Concrete scenario data and oracle-independence checks

Definitions used by the theorems below: the reference oracle, the
sufficient conditions under which runs are oracle-independent, and the
concrete environments and states of the loop scenarios. -/

/-- The reference oracle used to evaluate concrete runs. -/
def junk0 : Nat → Nat := fun _ => 0

/-- Sufficient condition for one `nextInst` call to be oracle-independent:
either the window is already full (all reads in-bounds) or the head of the
post-push window matches neither pattern's first element (both comparisons
fail on slot 0). -/
def junkFree (t : MagicTracker) (i : Nat) : Bool :=
  t.insts.length == MAGIC_LEN ||
    (match pushWin t.insts i with
     | [] => true
     | a :: _ => !(a == MAGIC_START0) && !(a == MAGIC_STOP0))

/-- Checks (along the `junk0` run) that every iteration the loop actually
executes satisfies `junkFree`. -/
def junkFreeRun (cfg : SimConfig) (env : Nat → EnvIn) :
    Nat → Nat → SimState → Bool
  | 0, _, _ => true
  | fuel + 1, idx, s =>
    if loopCond (env idx).done s then
      junkFree s.tracker (env idx).inst &&
        junkFreeRun cfg env fuel (idx + 1) (cycleStep junk0 cfg (env idx) s).1
    else true

/-- Checks (along the `junk0` run) that every cycle of an effect run
satisfies `junkFree`. -/
def junkFreeEffects (cfg : SimConfig) : List EnvIn → SimState → Bool
  | [], _ => true
  | e :: rest, s =>
    junkFree s.tracker e.inst &&
      junkFreeEffects cfg rest (cycleStep junk0 cfg e s).1

/-- Oracle inputs for a cycle on which `clock_lo` throws, with a host clock
edge asserted and no inbound readiness. -/
def envFail : EnvIn := ⟨false, true, true, false, none, 0⟩

/-- A mid-run loop state: counter 5, budget 100, no failure so far. -/
def sPre : SimState := ⟨5, 100, 0, ⟨[3], false, false⟩, ⟨false, 0⟩⟩

/-- Tracker holding four earlier distinct non-magic observations. -/
def winPre : MagicTracker := ⟨[1, 2, 3, 4], false, false⟩

/-- Loop state entering a pattern scenario: counter 37, budget 1000. -/
def s0Pat : SimState := ⟨37, 1000, 0, winPre, ⟨false, 0⟩⟩

/-- The start pattern, observed on four consecutive distinct cycles. -/
def c4Insts : List Nat := [MAGIC_START0, MAGIC_START1, MAGIC_START2, MAGIC_START3]

/-- The start pattern with the third encoding observed twice in a row. -/
def c4InstsRep : List Nat :=
  [MAGIC_START0, MAGIC_START1, MAGIC_START2, MAGIC_START2, MAGIC_START3]

/-- The start pattern followed by the stop pattern, each on consecutive
distinct cycles. -/
def c5Insts : List Nat :=
  [MAGIC_START0, MAGIC_START1, MAGIC_START2, MAGIC_START3,
   MAGIC_STOP0, MAGIC_STOP1, MAGIC_STOP2, MAGIC_STOP3]

/-- Environment whose transport never reports completion and whose DUT
never fails, with a fixed non-magic instruction observed every cycle (the
counter is never reset) and a zero transport exit status at the end. -/
def envC6 : Nat → EnvIn := fun _ => ⟨false, false, false, false, none, 0⟩

/-- Initial loop state with a cycle budget of 100. -/
def s0C6 : SimState := ⟨0, 100, 0, ⟨[], false, false⟩, ⟨false, 0⟩⟩

/-- The state in which the timeout run halts. -/
def c6Final : SimState := ⟨100, 100, 0, ⟨[0], false, false⟩, ⟨false, 0⟩⟩

/-- Instruction stream for the reset scenario: four benign warmup values,
then the four start-pattern encodings (completing at cycle 7), then a
benign value forever. -/
def instC9 (i : Nat) : Nat :=
  if i < 4 then i + 1
  else if i = 4 then MAGIC_START0
  else if i = 5 then MAGIC_START1
  else if i = 6 then MAGIC_START2
  else if i = 7 then MAGIC_START3
  else 9

/-- Environment for the reset scenario: transport never completes, no
failures, instructions from `instC9`. -/
def envC9 : Nat → EnvIn := fun i => ⟨false, false, false, false, none, instC9 i⟩

/-- Initial loop state with a cycle budget of 8. -/
def s0C9 : SimState := ⟨0, 8, 0, ⟨[], false, false⟩, ⟨false, 0⟩⟩

/-- State right after the start event of iteration 7 reset the counter. -/
def c9Reset : SimState :=
  ⟨1, 8, 0, ⟨[MAGIC_START1, MAGIC_START2, MAGIC_START3, 9], false, false⟩, ⟨false, 0⟩⟩

/-- The state in which the reset scenario halts. -/
def c9Final : SimState :=
  ⟨8, 8, 0, ⟨[MAGIC_START1, MAGIC_START2, MAGIC_START3, 9], false, false⟩, ⟨false, 0⟩⟩

/-- Environment whose DUT evaluation fails at iteration 2. -/
def envC10 : Nat → EnvIn := fun i => ⟨false, i == 2, false, false, none, 0⟩

/-- Initial loop state with a cycle budget of 5. -/
def s0C10 : SimState := ⟨0, 5, 0, ⟨[], false, false⟩, ⟨false, 0⟩⟩

/-- The state in which the failing run halts: the failure at iteration 2
captured the budget and set the tentative status 1. -/
def c10Final : SimState := ⟨3, 2, 1, ⟨[0], false, false⟩, ⟨false, 0⟩⟩

/-! ### Equation lemmas and junk-oracle irrelevance

The concrete simulation runs below are evaluated by the kernel at the
fixed oracle `junk0`; the lemmas here show the runs never depend on the
oracle (every out-of-size slot read is masked by a failed comparison on an
in-size slot, or no out-of-size read happens at all), so each run theorem
holds for an arbitrary oracle. -/

theorem simRun_zero (junk : Nat → Nat) (cfg : SimConfig) (env : Nat → EnvIn)
    (idx : Nat) (s : SimState) : simRun junk cfg env 0 idx s = s := rfl

theorem simRun_succ (junk : Nat → Nat) (cfg : SimConfig) (env : Nat → EnvIn)
    (fuel idx : Nat) (s : SimState) :
    simRun junk cfg env (fuel + 1) idx s =
      if loopCond (env idx).done s then
        simRun junk cfg env fuel (idx + 1) (cycleStep junk cfg (env idx) s).1
      else s := rfl

theorem runEffects_nil (junk : Nat → Nat) (cfg : SimConfig) (s : SimState) :
    runEffects junk cfg [] s = (s, []) := rfl

theorem runEffects_cons (junk : Nat → Nat) (cfg : SimConfig) (e : EnvIn)
    (rest : List EnvIn) (s : SimState) :
    runEffects junk cfg (e :: rest) s =
      ((runEffects junk cfg rest (cycleStep junk cfg e s).1).1,
       (cycleStep junk cfg e s).2 ::
         (runEffects junk cfg rest (cycleStep junk cfg e s).1).2) := rfl

theorem cycleStep_eq (junk : Nat → Nat) (cfg : SimConfig) (e : EnvIn) (s : SimState) :
    cycleStep junk cfg e s =
      (⟨(if ((MagicTracker.nextInst junk s.tracker e.inst).hitStart).1 then 0
          else s.trace_count) + 1,
        if e.evalFail then s.trace_count else s.max_cycles,
        if e.evalFail then 1 else s.ret,
        ((((MagicTracker.nextInst junk s.tracker e.inst).hitStart).2).hitStop).2,
        (if e.host_clk_edge then bridgeStep e.recv e.host_in_ready s.bridge
         else (s.bridge, false)).1⟩,
       ⟨true, e.host_clk_edge,
        (if e.host_clk_edge then bridgeStep e.recv e.host_in_ready s.bridge
         else (s.bridge, false)).2,
        true,
        ((MagicTracker.nextInst junk s.tracker e.inst).hitStart).1,
        ((((MagicTracker.nextInst junk s.tracker e.inst).hitStart).2).hitStop).1,
        (if ((MagicTracker.nextInst junk s.tracker e.inst).hitStart).1 then 0
         else s.trace_count),
        dumpCond cfg.vcd cfg.start
          (if ((MagicTracker.nextInst junk s.tracker e.inst).hitStart).1 then 0
           else s.trace_count),
        true⟩) := rfl

/-- A comparison whose first conjunct fails reads no out-of-size slot:
when the window head differs from the first pattern element, the whole
comparison is false regardless of the oracle. -/
theorem checkPat_head_ne (junk : Nat → Nat) (a : Nat) (rest : List Nat)
    (p0 p1 p2 p3 : Nat) (h : (a == p0) = false) :
    checkPat junk (a :: rest) p0 p1 p2 p3 = false := by
  unfold checkPat readSlot
  simp only [List.getD_cons_zero, h, Bool.false_and]

/-- On a full window every slot read is in-bounds, so the comparison does
not depend on the oracle. -/
theorem checkPat_junk_of_len (junk junk' : Nat → Nat) (w : List Nat)
    (p0 p1 p2 p3 : Nat) (h : w.length = MAGIC_LEN) :
    checkPat junk w p0 p1 p2 p3 = checkPat junk' w p0 p1 p2 p3 := by
  have h4 : w.length = 4 := h
  unfold checkPat readSlot
  rw [List.getD_eq_getElem _ _ (by omega), List.getD_eq_getElem _ _ (by omega),
    List.getD_eq_getElem _ _ (by omega), List.getD_eq_getElem _ _ (by omega),
    List.getD_eq_getElem _ _ (by omega), List.getD_eq_getElem _ _ (by omega),
    List.getD_eq_getElem _ _ (by omega), List.getD_eq_getElem _ _ (by omega)]

theorem checkPat_junk_push (junk junk' : Nat → Nat) (t : MagicTracker) (i : Nat)
    (h : junkFree t i = true) (p0 p1 p2 p3 : Nat)
    (hp : p0 = MAGIC_START0 ∨ p0 = MAGIC_STOP0) :
    checkPat junk (pushWin t.insts i) p0 p1 p2 p3 =
      checkPat junk' (pushWin t.insts i) p0 p1 p2 p3 := by
  unfold junkFree at h
  rw [Bool.or_eq_true] at h
  rcases h with h1 | h2
  · have hlen : t.insts.length = MAGIC_LEN := by simpa using h1
    have hplen : (pushWin t.insts i).length = MAGIC_LEN := by
      unfold pushWin
      rw [if_pos hlen, List.length_append, List.length_tail, hlen]
      rfl
    exact checkPat_junk_of_len junk junk' _ p0 p1 p2 p3 hplen
  · cases hw : pushWin t.insts i with
    | nil => simp [pushWin] at hw
    | cons a rest =>
      rw [hw] at h2
      change (!(a == MAGIC_START0) && !(a == MAGIC_STOP0)) = true at h2
      have ha := Bool.and_eq_true _ _ ▸ h2
      rcases hp with hp | hp <;> rw [hp]
      · rw [checkPat_head_ne junk a rest _ p1 p2 p3 (by simpa using ha.1),
          checkPat_head_ne junk' a rest _ p1 p2 p3 (by simpa using ha.1)]
      · rw [checkPat_head_ne junk a rest _ p1 p2 p3 (by simpa using ha.2),
          checkPat_head_ne junk' a rest _ p1 p2 p3 (by simpa using ha.2)]

theorem nextInst_junk (junk junk' : Nat → Nat) (t : MagicTracker) (i : Nat)
    (h : junkFree t i = true) :
    t.nextInst junk i = t.nextInst junk' i := by
  unfold MagicTracker.nextInst
  split
  · simp only [checkPat_junk_push junk junk' t i h MAGIC_START0 MAGIC_START1
        MAGIC_START2 MAGIC_START3 (Or.inl rfl),
      checkPat_junk_push junk junk' t i h MAGIC_STOP0 MAGIC_STOP1
        MAGIC_STOP2 MAGIC_STOP3 (Or.inr rfl)]
  · rfl

theorem cycleStep_junk (junk junk' : Nat → Nat) (cfg : SimConfig) (e : EnvIn)
    (s : SimState) (h : junkFree s.tracker e.inst = true) :
    cycleStep junk cfg e s = cycleStep junk' cfg e s := by
  rw [cycleStep_eq junk, cycleStep_eq junk', nextInst_junk junk junk' _ _ h]

theorem junkFreeRun_succ (cfg : SimConfig) (env : Nat → EnvIn)
    (fuel idx : Nat) (s : SimState) :
    junkFreeRun cfg env (fuel + 1) idx s =
      if loopCond (env idx).done s then
        junkFree s.tracker (env idx).inst &&
          junkFreeRun cfg env fuel (idx + 1) (cycleStep junk0 cfg (env idx) s).1
      else true := rfl

theorem simRun_junk (junk : Nat → Nat) (cfg : SimConfig) (env : Nat → EnvIn) :
    ∀ (fuel idx : Nat) (s : SimState), junkFreeRun cfg env fuel idx s = true →
      simRun junk cfg env fuel idx s = simRun junk0 cfg env fuel idx s := by
  intro fuel
  induction fuel with
  | zero => intro idx s _; rfl
  | succ f ih =>
    intro idx s h
    rw [junkFreeRun_succ] at h
    by_cases hc : loopCond (env idx).done s = true
    · rw [if_pos hc] at h
      have hh := Bool.and_eq_true _ _ ▸ h
      rw [simRun_succ junk, simRun_succ junk0, if_pos hc, if_pos hc,
        cycleStep_junk junk junk0 cfg (env idx) s hh.1]
      exact ih (idx + 1) _ hh.2
    · rw [simRun_succ junk, simRun_succ junk0, if_neg hc, if_neg hc]

theorem runEffects_junk (junk : Nat → Nat) (cfg : SimConfig) :
    ∀ (es : List EnvIn) (s : SimState), junkFreeEffects cfg es s = true →
      runEffects junk cfg es s = runEffects junk0 cfg es s := by
  intro es
  induction es with
  | nil => intro s _; rfl
  | cons e rest ih =>
    intro s h
    have hh := Bool.and_eq_true _ _ ▸ h
    rw [runEffects_cons junk, runEffects_cons junk0,
      cycleStep_junk junk junk0 cfg e s hh.1, ih _ hh.2]

/-! ### Structural facts about `nextInst` -/

theorem nextInst_pushes (junk : Nat → Nat) (t : MagicTracker) (i : Nat)
    (hc : t.insts = [] ∨ t.insts.getLast? ≠ some i) :
    t.nextInst junk i =
      ⟨pushWin t.insts i,
       t.needs_reset || checkPat junk (pushWin t.insts i)
         MAGIC_START0 MAGIC_START1 MAGIC_START2 MAGIC_START3,
       t.needs_emit_cycle_count || checkPat junk (pushWin t.insts i)
         MAGIC_STOP0 MAGIC_STOP1 MAGIC_STOP2 MAGIC_STOP3⟩ := by
  unfold MagicTracker.nextInst
  rw [if_pos hc]

theorem nextInst_noPush (junk : Nat → Nat) (t : MagicTracker) (i : Nat)
    (hc : ¬(t.insts = [] ∨ t.insts.getLast? ≠ some i)) :
    t.nextInst junk i = t := by
  unfold MagicTracker.nextInst
  rw [if_neg hc]

/-- A second observation of the instruction just pushed changes nothing. -/
theorem nextInst_idem (junk : Nat → Nat) (t : MagicTracker) (i : Nat) :
    (t.nextInst junk i).nextInst junk i = t.nextInst junk i := by
  by_cases hc : t.insts = [] ∨ t.insts.getLast? ≠ some i
  · rw [nextInst_pushes junk t i hc]
    apply nextInst_noPush
    push_neg
    exact ⟨by simp [pushWin], List.getLast?_concat _⟩
  · rw [nextInst_noPush junk t i hc, nextInst_noPush junk t i hc]

theorem nextInst_iterate_fixed (junk : Nat → Nat) (t : MagicTracker) (i : Nat) :
    ∀ m : Nat, (fun u : MagicTracker => u.nextInst junk i)^[m] (t.nextInst junk i) =
      t.nextInst junk i := by
  intro m
  induction m with
  | zero => rfl
  | succ k ih =>
    rw [Function.iterate_succ_apply, nextInst_idem]
    exact ih

/-- Claim C3: if the same instruction value is reported as currently
retiring on `n` consecutive cycles (`n ≥ 1`), `MagicTracker::nextInst`
pushes it into the 4-slot window exactly once, not `n` times: iterating the
observation `n` times equals observing it once, so the repeated
observations leave the window contents and both event flags unchanged. -/
theorem c3_repeated_retirement_pushed_once (junk : Nat → Nat)
    (t : MagicTracker) (i n : Nat) (hn : 1 ≤ n) :
    (fun u : MagicTracker => u.nextInst junk i)^[n] t = t.nextInst junk i := by
  obtain ⟨m, rfl⟩ : ∃ m, n = m + 1 := ⟨n - 1, by omega⟩
  rw [Function.iterate_succ_apply]
  exact nextInst_iterate_fixed junk t i m

theorem c3_repeated_retirement_pushed_once_witness :
    1 ≤ 3 ∧ (fun u : MagicTracker => u.nextInst junk0 5)^[3] ⟨[], false, false⟩ =
      MagicTracker.nextInst junk0 ⟨[], false, false⟩ 5 :=
  ⟨by decide, c3_repeated_retirement_pushed_once junk0 ⟨[], false, false⟩ 5 3 (by decide)⟩

/-! ### The bridge re-presents a pending frame (C2) -/

theorem bridgeRun_cons (r : Option Nat) (rdy : Bool)
    (rest : List (Option Nat × Bool)) (s : BridgeState) :
    bridgeRun ((r, rdy) :: rest) s =
      ((bridgeRun rest (bridgeStep r rdy s).1).1,
       ((bridgeStep r rdy s).2, (bridgeStep r rdy s).1.htif_in_valid,
        (bridgeStep r rdy s).1.htif_in_bits) ::
         (bridgeRun rest (bridgeStep r rdy s).1).2) := rfl

theorem bridgeStep_gated (r : Option Nat) (s : BridgeState)
    (hvalid : s.htif_in_valid = true) :
    bridgeStep r false s = (s, false) := by
  unfold bridgeStep
  rw [hvalid]
  rfl

/-- Claim C2: on every gated cycle where a frame is pending
(`htif_in_valid` true) and the DUT has not asserted inbound readiness, the
bridge attempts no receive and re-presents the identical buffered frame
value and valid flag; this holds on every such cycle for as long as the
readiness stays deasserted. -/
theorem c2_pending_frame_represented (s : BridgeState)
    (l : List (Option Nat × Bool)) (hvalid : s.htif_in_valid = true)
    (hready : ∀ p ∈ l, p.2 = false) :
    (bridgeRun l s).1 = s ∧
      (bridgeRun l s).2 = l.map (fun _ => (false, true, s.htif_in_bits)) := by
  induction l with
  | nil => exact ⟨rfl, rfl⟩
  | cons p rest ih =>
    obtain ⟨r, rdy⟩ := p
    have hr : rdy = false := hready (r, rdy) (List.mem_cons_self _ _)
    subst hr
    have ihr := ih (fun q hq => hready q (List.mem_cons_of_mem _ hq))
    rw [bridgeRun_cons, bridgeStep_gated r s hvalid]
    exact ⟨ihr.1, by rw [List.map_cons, hvalid, ihr.2]⟩

theorem c2_pending_frame_represented_witness :
    (BridgeState.mk true 42).htif_in_valid = true ∧
    (∀ p ∈ [((some 7 : Option Nat), false), ((none : Option Nat), false)], p.2 = false) ∧
    ((bridgeRun [((some 7 : Option Nat), false), ((none : Option Nat), false)]
        ⟨true, 42⟩).1 = ⟨true, 42⟩ ∧
      (bridgeRun [((some 7 : Option Nat), false), ((none : Option Nat), false)]
          ⟨true, 42⟩).2 =
        [((some 7 : Option Nat), false), ((none : Option Nat), false)].map
          (fun _ => (false, true, (BridgeState.mk true 42).htif_in_bits))) :=
  ⟨rfl, by decide,
   c2_pending_frame_represented ⟨true, 42⟩
     [((some 7 : Option Nat), false), ((none : Option Nat), false)] rfl (by decide)⟩

/-! ### Trace-start threshold (C7) -/

/-- Claim C7: with tracing enabled and trace-start threshold 10, the VCD
record condition holds at counter value 0, fails at every counter value 1
through 9, and holds at every counter value at least 10. -/
theorem c7_trace_start_threshold (i : Nat) :
    dumpCond true 10 0 = true ∧
      (1 ≤ i → i ≤ 9 → dumpCond true 10 i = false) ∧
      (10 ≤ i → dumpCond true 10 i = true) := by
  refine ⟨by decide, ?_, ?_⟩
  · intro h1 h9
    unfold dumpCond
    have hz : (i == 0) = false := by
      simp only [beq_eq_false_iff_ne, ne_eq]
      omega
    have hd : decide (10 ≤ i) = false := by
      simp only [decide_eq_false_iff_not]
      omega
    rw [hz, hd]
    rfl
  · intro h10
    unfold dumpCond
    have hd : decide (10 ≤ i) = true := by simpa using h10
    rw [hd]
    simp

theorem c7_trace_start_threshold_witness :
    (1 ≤ 5 ∧ 5 ≤ 9 ∧ dumpCond true 10 5 = false) ∧
      (10 ≤ 12 ∧ dumpCond true 10 12 = true) :=
  ⟨⟨by decide, by decide, (c7_trace_start_threshold 5).2.1 (by decide) (by decide)⟩,
   ⟨by decide, (c7_trace_start_threshold 12).2.2 (by decide)⟩⟩

/-! ### Out-of-size reads in the pattern comparison (C8) -/

/-- Claim C8 (refuted; the code performs an out-of-size read): on the very
first push, of the instruction `MAGIC_START0`, the short-circuiting
comparison reads slot index 1 although the buffer holds a single element:
index 1 is in the access list while the window length is 1, for every
oracle, so the read is outside the elements actually pushed. -/
theorem c8_out_of_size_read (junk : Nat → Nat) :
    1 ∈ nextInstAccesses junk ⟨[], false, false⟩ MAGIC_START0 ∧
      (MagicTracker.nextInst junk ⟨[], false, false⟩ MAGIC_START0).insts = [MAGIC_START0] ∧
      ¬(1 < ([MAGIC_START0] : List Nat).length) := by
  refine ⟨?_, rfl, by decide⟩
  unfold nextInstAccesses
  rw [if_pos (Or.inl rfl)]
  dsimp only
  unfold patAccesses
  have h0 : readSlot junk (pushWin [] MAGIC_START0) 0 = MAGIC_START0 := rfl
  rw [h0, beq_self_eq_true, if_pos rfl]
  exact List.mem_append_left _ (List.mem_cons_of_mem _ (List.mem_cons_self _ _))

/-! ### Loop scenarios -/

/-- Claim C1 counterexample: on a cycle where the DUT combinational
evaluation fails, the iteration's remaining steps are not suppressed: the
memory-backend tick, the host transport exchange (a receive is even
attempted), the pattern observation, the trace dump and the sequential
commit all still execute in that same iteration. -/
theorem c1_no_suppression_counterexample :
    envFail.evalFail = true ∧
    (cycleStep junk0 ⟨true, 0⟩ envFail sPre).2.ticked = true ∧
    (cycleStep junk0 ⟨true, 0⟩ envFail sPre).2.exchanged = true ∧
    (cycleStep junk0 ⟨true, 0⟩ envFail sPre).2.recvAttempted = true ∧
    (cycleStep junk0 ⟨true, 0⟩ envFail sPre).2.observed = true ∧
    (cycleStep junk0 ⟨true, 0⟩ envFail sPre).2.dumped = true ∧
    (cycleStep junk0 ⟨true, 0⟩ envFail sPre).2.committed = true := by decide

/-- Claim C1 (amended): if `clock_lo` fails on a cycle, the loop captures
the current cycle count as the new cycle budget, records termination cause
1, and terminates after finishing that iteration (the loop condition fails
afterwards); the iteration's remaining steps — memory tick, host exchange
on a host-edge cycle, pattern observation, sequential commit — still
execute rather than being suppressed. -/
theorem c1_eval_failure_graceful (junk : Nat → Nat) (cfg : SimConfig)
    (e : EnvIn) (s : SimState) (hf : e.evalFail = true) :
    (cycleStep junk cfg e s).1.max_cycles = s.trace_count ∧
    (cycleStep junk cfg e s).1.ret = 1 ∧
    loopCond false (cycleStep junk cfg e s).1 = false ∧
    (cycleStep junk cfg e s).2.ticked = true ∧
    (cycleStep junk cfg e s).2.observed = true ∧
    (cycleStep junk cfg e s).2.committed = true ∧
    (cycleStep junk cfg e s).2.exchanged = e.host_clk_edge := by
  rw [cycleStep_eq]
  refine ⟨by simp [hf], by simp [hf], ?_, rfl, rfl, rfl, rfl⟩
  unfold loopCond
  simp [hf]

theorem c1_eval_failure_graceful_witness :
    envFail.evalFail = true ∧
    ((cycleStep junk0 ⟨true, 0⟩ envFail sPre).1.max_cycles = sPre.trace_count ∧
     (cycleStep junk0 ⟨true, 0⟩ envFail sPre).1.ret = 1 ∧
     loopCond false (cycleStep junk0 ⟨true, 0⟩ envFail sPre).1 = false ∧
     (cycleStep junk0 ⟨true, 0⟩ envFail sPre).2.ticked = true ∧
     (cycleStep junk0 ⟨true, 0⟩ envFail sPre).2.observed = true ∧
     (cycleStep junk0 ⟨true, 0⟩ envFail sPre).2.committed = true ∧
     (cycleStep junk0 ⟨true, 0⟩ envFail sPre).2.exchanged = envFail.host_clk_edge) :=
  ⟨rfl, c1_eval_failure_graceful junk0 ⟨true, 0⟩ envFail sPre rfl⟩

/-! ### Pattern scenarios (C4, C5)

The prior window `[1, 2, 3, 4]` represents four earlier distinct benign
observations: it is full (so the runs never read an out-of-size slot) and
shares no fragment with either magic pattern. -/

/-- Claim C4: feeding the 4 start-pattern encodings as the 4 most recent
distinct observations produces exactly one consumable start event — the
consumed start events over the run are false, false, false, true, and the
pending flag is clear afterwards (so `hitStart` stays false until a new
match) — consuming it resets the cycle counter to 0 on that cycle (the
counter value at the observation point is 37, 38, 39, then 0, and the
counter afterwards is 1); interspersing a consecutive repeat of the third
encoding still yields exactly one event. -/
theorem c4_start_pattern_one_event (junk : Nat → Nat) :
    ((runEffects junk ⟨false, 0⟩ (c4Insts.map obsEnv) s0Pat).2.map
        CycleEffects.startEvt = [false, false, false, true] ∧
      (runEffects junk ⟨false, 0⟩ (c4Insts.map obsEnv) s0Pat).2.map
        CycleEffects.reported = [37, 38, 39, 0] ∧
      (runEffects junk ⟨false, 0⟩ (c4Insts.map obsEnv) s0Pat).1.trace_count = 1 ∧
      (runEffects junk ⟨false, 0⟩ (c4Insts.map obsEnv) s0Pat).1.tracker.needs_reset
        = false) ∧
    (runEffects junk ⟨false, 0⟩ (c4InstsRep.map obsEnv) s0Pat).2.map
      CycleEffects.startEvt = [false, false, false, false, true] := by
  rw [runEffects_junk junk ⟨false, 0⟩ (c4Insts.map obsEnv) s0Pat (by decide),
    runEffects_junk junk ⟨false, 0⟩ (c4InstsRep.map obsEnv) s0Pat (by decide)]
  decide

/-- Claim C5: feeding the 4 stop-pattern encodings as the 4 most recent
distinct observations (here right after a start pattern) yields exactly one
consumable stop event, and the count reported at that event equals the
number of cycles elapsed since the most recent counter reset: the start
event at the fourth cycle resets the counter to 0, and the stop event four
cycles later reports 4. -/
theorem c5_stop_pattern_reports_elapsed (junk : Nat → Nat) :
    (runEffects junk ⟨false, 0⟩ (c5Insts.map obsEnv) s0Pat).2.map
        CycleEffects.stopEvt =
      [false, false, false, false, false, false, false, true] ∧
    (runEffects junk ⟨false, 0⟩ (c5Insts.map obsEnv) s0Pat).2.map
        CycleEffects.startEvt =
      [false, false, false, true, false, false, false, false] ∧
    (runEffects junk ⟨false, 0⟩ (c5Insts.map obsEnv) s0Pat).2.map
        CycleEffects.reported = [37, 38, 39, 0, 1, 2, 3, 4] ∧
    (runEffects junk ⟨false, 0⟩
        (c5Insts.map obsEnv) s0Pat).1.tracker.needs_emit_cycle_count = false := by
  rw [runEffects_junk junk ⟨false, 0⟩ (c5Insts.map obsEnv) s0Pat (by decide)]
  decide

/-! ### Timeout scenario (C6) -/

set_option maxRecDepth 100000 in
/-- Claim C6: with a cycle budget of 100 and a transport that never reports
completion (and no evaluation failure, no counter reset, zero transport
exit status), the loop terminates — the loop condition fails at the final
state, and surplus fuel is not consumed — with the cycle counter equal to
exactly 100, and the process exit status is 2. -/
theorem c6_timeout_after_budget (junk : Nat → Nat) :
    simRun junk ⟨false, 0⟩ envC6 150 0 s0C6 = c6Final ∧
    c6Final.trace_count = 100 ∧
    loopCond (envC6 100).done c6Final = false ∧
    finalRet 0 c6Final = 2 := by
  rw [simRun_junk junk ⟨false, 0⟩ envC6 150 0 s0C6 (by decide)]
  exact ⟨by decide, by decide, by decide, by decide⟩

/-! ### The budget compares the resettable counter (C9) -/

set_option maxRecDepth 100000 in
/-- Claim C9: the budget check compares the resettable counter
`trace_count` to `max_cycles`, not a count of total iterations: in a run
with budget 8 whose start event resets the counter at iteration 7, the
counter is back to 2 after 9 iterations, the loop is still live after 14
iterations, and it halts after exactly 15 = 7 + 8 iterations with the
counter equal to the budget, reporting timeout (exit 2); moreover for any
loop exit state whose `ret` is 0 or 1 and zero transport status, exit
status 2 is reported exactly when the counter equals the budget. -/
theorem c9_budget_on_resettable_counter (junk : Nat → Nat) (s : SimState)
    (hs : s.ret = 0 ∨ s.ret = 1) :
    (simRun junk ⟨false, 0⟩ envC9 9 0 s0C9 =
        (⟨2, 8, 0, c9Reset.tracker, ⟨false, 0⟩⟩ : SimState) ∧
      loopCond (envC9 14).done (simRun junk ⟨false, 0⟩ envC9 14 0 s0C9) = true ∧
      simRun junk ⟨false, 0⟩ envC9 15 0 s0C9 = c9Final ∧
      simRun junk ⟨false, 0⟩ envC9 30 0 s0C9 = c9Final ∧
      c9Final.trace_count = c9Final.max_cycles ∧
      finalRet 0 c9Final = 2) ∧
    (finalRet 0 s = 2 ↔ s.trace_count = s.max_cycles) := by
  constructor
  · rw [simRun_junk junk ⟨false, 0⟩ envC9 9 0 s0C9 (by decide),
      simRun_junk junk ⟨false, 0⟩ envC9 14 0 s0C9 (by decide),
      simRun_junk junk ⟨false, 0⟩ envC9 15 0 s0C9 (by decide),
      simRun_junk junk ⟨false, 0⟩ envC9 30 0 s0C9 (by decide)]
    exact ⟨by decide, by decide, by decide, by decide, by decide, by decide⟩
  · unfold finalRet
    by_cases hm : s.trace_count = s.max_cycles
    · simp [hm]
    · rw [if_neg (show ¬((0 : Nat) ≠ 0) by simp), if_neg hm]
      constructor
      · intro h2
        rcases hs with h | h <;> rw [h] at h2 <;> omega
      · intro h
        exact absurd h hm

theorem c9_budget_on_resettable_counter_witness :
    ((⟨5, 9, 1, ⟨[], false, false⟩, ⟨false, 0⟩⟩ : SimState).ret = 0 ∨
      (⟨5, 9, 1, ⟨[], false, false⟩, ⟨false, 0⟩⟩ : SimState).ret = 1) ∧
    (finalRet 0 (⟨5, 9, 1, ⟨[], false, false⟩, ⟨false, 0⟩⟩ : SimState) = 2 ↔
      (⟨5, 9, 1, ⟨[], false, false⟩, ⟨false, 0⟩⟩ : SimState).trace_count =
        (⟨5, 9, 1, ⟨[], false, false⟩, ⟨false, 0⟩⟩ : SimState).max_cycles) :=
  ⟨Or.inr rfl,
   (c9_budget_on_resettable_counter junk0
     ⟨5, 9, 1, ⟨[], false, false⟩, ⟨false, 0⟩⟩ (Or.inr rfl)).2⟩

/-! ### Transport status overrides the evaluation-failure status (C10) -/

set_option maxRecDepth 100000 in
/-- Claim C10: when a DUT evaluation failure set the tentative status 1
and the transport reports a non-zero exit status `e`, the final process
exit status is `e`: the transport exit-code check overwrites the
evaluation-failure code (with a zero transport status the failure code 1
stands). -/
theorem c10_transport_status_overrides (junk : Nat → Nat) (e : Nat)
    (he : e ≠ 0) :
    simRun junk ⟨false, 0⟩ envC10 10 0 s0C10 = c10Final ∧
    c10Final.ret = 1 ∧
    finalRet e c10Final = e ∧
    finalRet 0 c10Final = 1 := by
  refine ⟨?_, rfl, ?_, by decide⟩
  · rw [simRun_junk junk ⟨false, 0⟩ envC10 10 0 s0C10 (by decide)]
    decide
  · unfold finalRet
    rw [if_pos he]

theorem c10_transport_status_overrides_witness :
    (7 : Nat) ≠ 0 ∧
    (simRun junk0 ⟨false, 0⟩ envC10 10 0 s0C10 = c10Final ∧
     c10Final.ret = 1 ∧
     finalRet 7 c10Final = 7 ∧
     finalRet 0 c10Final = 1) :=
  ⟨by decide, c10_transport_status_overrides junk0 7 (by decide)⟩
